import Mathlib

/-!
Shallow embedding of `homework.py` (a Telegram homework-status polling bot)
and proofs about the claims of its specification.

Python values appearing in decoded JSON responses are modelled by `PyVal`;
Python exceptions raised by the script are modelled by the `Failure` type and
fallible functions return `Except Failure _`.  The external effects (the HTTP
GET inside `get_api_answer`, the two `bot.send_message` calls) are modelled by
an explicit per-cycle environment `CycleEnv` describing what the outside world
does on that cycle.
-/

namespace HomeworkBot

/-- A decoded JSON / Python value, as handled by the script: `None`, integers,
strings, lists and string-keyed dicts (JSON objects). -/
inductive PyVal where
  | none
  | int (n : Int)
  | str (s : String)
  | list (xs : List PyVal)
  | dict (kvs : List (String × PyVal))

mutual

/-- Decidable equality on `PyVal`, mirroring Python structural `==` on the
value shapes the script handles. -/
def PyVal.decEq : (a b : PyVal) → Decidable (a = b)
  | .none, .none => .isTrue rfl
  | .int a, .int b =>
    if h : a = b then .isTrue (by rw [h]) else .isFalse (fun hh => h (PyVal.int.inj hh))
  | .str a, .str b =>
    if h : a = b then .isTrue (by rw [h]) else .isFalse (fun hh => h (PyVal.str.inj hh))
  | .list xs, .list ys =>
    match PyVal.decEqList xs ys with
    | .isTrue h => .isTrue (by rw [h])
    | .isFalse h => .isFalse (fun hh => h (PyVal.list.inj hh))
  | .dict xs, .dict ys =>
    match PyVal.decEqKVs xs ys with
    | .isTrue h => .isTrue (by rw [h])
    | .isFalse h => .isFalse (fun hh => h (PyVal.dict.inj hh))
  | .none, .int _ => .isFalse nofun
  | .none, .str _ => .isFalse nofun
  | .none, .list _ => .isFalse nofun
  | .none, .dict _ => .isFalse nofun
  | .int _, .none => .isFalse nofun
  | .int _, .str _ => .isFalse nofun
  | .int _, .list _ => .isFalse nofun
  | .int _, .dict _ => .isFalse nofun
  | .str _, .none => .isFalse nofun
  | .str _, .int _ => .isFalse nofun
  | .str _, .list _ => .isFalse nofun
  | .str _, .dict _ => .isFalse nofun
  | .list _, .none => .isFalse nofun
  | .list _, .int _ => .isFalse nofun
  | .list _, .str _ => .isFalse nofun
  | .list _, .dict _ => .isFalse nofun
  | .dict _, .none => .isFalse nofun
  | .dict _, .int _ => .isFalse nofun
  | .dict _, .str _ => .isFalse nofun
  | .dict _, .list _ => .isFalse nofun

/-- Decidable equality on lists of `PyVal`. -/
def PyVal.decEqList : (xs ys : List PyVal) → Decidable (xs = ys)
  | [], [] => .isTrue rfl
  | [], _ :: _ => .isFalse nofun
  | _ :: _, [] => .isFalse nofun
  | x :: xs, y :: ys =>
    match PyVal.decEq x y, PyVal.decEqList xs ys with
    | .isTrue h1, .isTrue h2 => .isTrue (by rw [h1, h2])
    | .isFalse h1, _ => .isFalse (fun hh => h1 (List.cons.inj hh).1)
    | _, .isFalse h2 => .isFalse (fun hh => h2 (List.cons.inj hh).2)

/-- Decidable equality on dict entry lists. -/
def PyVal.decEqKVs : (xs ys : List (String × PyVal)) → Decidable (xs = ys)
  | [], [] => .isTrue rfl
  | [], _ :: _ => .isFalse nofun
  | _ :: _, [] => .isFalse nofun
  | (k1, v1) :: xs, (k2, v2) :: ys =>
    if hk : k1 = k2 then
      match PyVal.decEq v1 v2, PyVal.decEqKVs xs ys with
      | .isTrue h1, .isTrue h2 => .isTrue (by rw [hk, h1, h2])
      | .isFalse h1, _ => .isFalse (fun hh => h1 (congrArg Prod.snd (List.cons.inj hh).1))
      | _, .isFalse h2 => .isFalse (fun hh => h2 (List.cons.inj hh).2)
    else .isFalse (fun hh => hk (congrArg Prod.fst (List.cons.inj hh).1))

end

instance : DecidableEq PyVal := PyVal.decEq

/-- The exceptions the script can raise.  `connectionError`, `statusCodeError`,
`responseError`, `keyError` (the custom class of `homework.py`),
`typeError`, `homeworkStatusError`, `sendMessageError` and `valueError`
correspond to `ConnectionError`, `StatusCodeError`, `ResponseError`,
`KeyError` (custom), `TypeError`, `HomeworkStatusError`, `SendMessageError`
and `ValueError`; `builtinKeyError` is the unhandled builtin `KeyError`
raised by a failing dict subscript such as `response.json()["code"]`. -/
inductive Failure where
  | connectionError (msg : String)
  | statusCodeError (code : Nat)
  | responseError (msg : String)
  | builtinKeyError (key : String)
  | typeError (msg : String)
  | keyError (key : String)
  | homeworkStatusError (status : String)
  | sendMessageError (msg : String)
  | valueError (msg : String)
deriving DecidableEq

/-- Python `d.get(k)` / key lookup on a dict, first binding wins. -/
def dictFind (kvs : List (String × PyVal)) (k : String) : Option PyVal :=
  match kvs.find? (fun p => p.1 == k) with
  | Option.none => Option.none
  | some p => some p.2

/-- Python `k in v` for a string `k`: key membership on dicts, element
membership on lists, substring test on strings, `TypeError` otherwise. -/
def pyContains (container : PyVal) (k : String) : Except Failure Bool :=
  match container with
  | .dict kvs => .ok (kvs.any (fun p => p.1 == k))
  | .list xs => .ok (xs.contains (.str k))
  | .str s => .ok ((s.splitOn k).length > 1)
  | _ => .error (.typeError "argument is not iterable")

/-- Python `v[k]` for a string key `k`: dict subscript raising the builtin
`KeyError` on a missing key, `TypeError` on non-dict values. -/
def pySubscript (container : PyVal) (k : String) : Except Failure PyVal :=
  match container with
  | .dict kvs =>
    match dictFind kvs k with
    | some v => .ok v
    | Option.none => .error (.builtinKeyError k)
  | _ => .error (.typeError "value is not subscriptable by a string")

/-- Python `str(v)` as used when interpolating a value into a message
template.  The claims only interpolate strings and integers; rendering of
composite values is not load-bearing anywhere, so it is a fixed tag. -/
def pyStr : PyVal → String
  | .str s => s
  | .int n => toString n
  | .none => "None"
  | .list _ => "[list]"
  | .dict _ => "[dict]"

/-- Python `hash(v)` succeeds exactly on non-container values; a dict
membership test with an unhashable key raises `TypeError`. -/
def pyHashable : PyVal → Bool
  | .list _ => false
  | .dict _ => false
  | _ => true

/-- The `HOMEWORK_VERDICTS` constant of `homework.py`: the fixed verdict
table from known status strings to human-readable verdict text. -/
def HOMEWORK_VERDICTS : List (String × String) :=
  [("approved", "Работа проверена: ревьюеру всё понравилось. Ура!"),
   ("reviewing", "Работа взята на проверку ревьюером."),
   ("rejected", "Работа проверена: у ревьюера есть замечания.")]

/-- Lookup in the verdict table. -/
def verdictLookup (s : String) : Option String :=
  match HOMEWORK_VERDICTS.find? (fun p => p.1 == s) with
  | some p => some p.2
  | Option.none => Option.none

/-- `PARSE_STATUS.format(name=name, verdict=verdict)`: the fixed message
template of a status-change message. -/
def PARSE_STATUS (name verdict : String) : String :=
  "Изменился статус проверки работы \"" ++ name ++ "\". " ++ verdict

/-- `STATUS_EXEPTION.format(status=status)` (sic, spelled as in the source). -/
def STATUS_EXEPTION (status : String) : String :=
  "Неожиданный статус домашней работы: " ++ status

/-- `KEY_ERROR.format(key=key)`. -/
def KEY_ERROR (key : String) : String :=
  "В словаре отстутсвует необходимый ключ: " ++ key

/-- `TYPE_ERROR_RESPONSE` message (the interpolated runtime type is not
load-bearing). -/
def TYPE_ERROR_RESPONSE : String :=
  "Полученный ответ API не является типом dict."

/-- `TYPE_ERROR_HOMEWORK` message. -/
def TYPE_ERROR_HOMEWORK : String :=
  "Полученные домашние работы не содержаться в list."

/-- `API_REQUEST_ERROR` message (URL/headers/params interpolation elided;
they are process-wide constants). -/
def API_REQUEST_ERROR : String :=
  "Не удалось обратиться к API Яндекс Практикума."

/-- `RESPONSE_ERROR.format(code=..., error=...)`. -/
def RESPONSE_ERROR (code error : String) : String :=
  "API отказало в обслуживании. Код ошибки: " ++ code ++ ", ошибка: " ++ error

/-- `MESSAGE_SEND_ERROR.format(message=message)`. -/
def MESSAGE_SEND_ERROR (message : String) : String :=
  "Сбой при отправке сообщения: " ++ message ++ "."

/-- `TOKENS_LOAD_UNCORRECTLY` message. -/
def TOKENS_LOAD_UNCORRECTLY : String :=
  "Отсутствует одна или несколько из обязательных переменных."

/-- What the outside world does for the single `requests.get` of one cycle:
either the transport fails (`requests.exceptions.RequestException`) or a
response arrives with a status code and a decoded JSON body. -/
inductive FetchOutcome where
  | netFail
  | response (status_code : Nat) (body : PyVal)
deriving DecidableEq

/-- `get_api_answer(timestamp)` of `homework.py`, as a function of the
transport outcome.  Mirrors the source: `RequestException` becomes
`ConnectionError`; a non-200 code raises `StatusCodeError`; a body containing
an `"error"` or `"code"` field leads to `ResponseError`, but the message
formatting subscripts `response.json()["code"]` and then
`response.json()["error"]`, each of which raises the builtin `KeyError` when
that field is absent. -/
def get_api_answer (outcome : FetchOutcome) : Except Failure PyVal := do
  match outcome with
  | .netFail => throw (.connectionError API_REQUEST_ERROR)
  | .response status_code body =>
    if status_code ≠ 200 then throw (.statusCodeError status_code)
    let hasErrField ← pyContains body "error"
    let hasCodeField ← pyContains body "code"
    if hasErrField || hasCodeField then
      let codeV ← pySubscript body "code"
      let errV ← pySubscript body "error"
      throw (.responseError (RESPONSE_ERROR (pyStr codeV) (pyStr errV)))
    return body

/-- `check_response(response)` of `homework.py`: `TypeError` on a non-dict,
then the loop over the keys ("homeworks", "current_date") raising the custom
`KeyError` on the first missing key, then `TypeError` if the value under
`homeworks` is not a list, else that list. -/
def check_response (response : PyVal) : Except Failure (List PyVal) :=
  match response with
  | .dict kvs =>
    if (dictFind kvs "homeworks").isNone then
      .error (.keyError (KEY_ERROR "homeworks"))
    else if (dictFind kvs "current_date").isNone then
      .error (.keyError (KEY_ERROR "current_date"))
    else
      match dictFind kvs "homeworks" with
      | some (.list hws) => .ok hws
      | _ => .error (.typeError TYPE_ERROR_HOMEWORK)
  | _ => .error (.typeError TYPE_ERROR_RESPONSE)

/-- `parse_status(homework)` of `homework.py`: custom `KeyError` when
`homework_name` is missing, then when `status` is missing;
`HomeworkStatusError` when the status is not a key of `HOMEWORK_VERDICTS`;
otherwise the formatted `PARSE_STATUS` message. -/
def parse_status (homework : PyVal) : Except Failure String := do
  let hasName ← pyContains homework "homework_name"
  if !hasName then throw (.keyError (KEY_ERROR "homework_name"))
  let name ← pySubscript homework "homework_name"
  let hasStatus ← pyContains homework "status"
  if !hasStatus then throw (.keyError (KEY_ERROR "status"))
  let status ← pySubscript homework "status"
  if pyHashable status then
    match status with
    | .str s =>
      match verdictLookup s with
      | some verdict => return PARSE_STATUS (pyStr name) verdict
      | Option.none => throw (.homeworkStatusError (STATUS_EXEPTION s))
    | other => throw (.homeworkStatusError (STATUS_EXEPTION (pyStr other)))
  else throw (.typeError "unhashable type")

/-- The three configuration values loaded from the environment at startup
(each possibly absent, i.e. Python `None`). -/
structure Config where
  PRACTICUM_TOKEN : Option String
  TELEGRAM_TOKEN : Option String
  TELEGRAM_CHAT_ID : Option String
deriving DecidableEq

/-- The keys of the module-level `TOKENS` dict, in insertion order.  Iterating
a Python dict (`for name, token in TOKENS:`) yields exactly these key
strings. -/
def TOKENS_keys : List String := ["PRACTICUM_TOKEN", "TELEGRAM_TOKEN", "TELEGRAM_CHAT_ID"]

/-- Python tuple unpacking `name, token = s` of a string `s`: succeeds with
the two characters when `s` has length exactly 2, raises `ValueError`
otherwise. -/
def unpackPair (s : String) : Except Failure (Char × Char) :=
  match s.toList with
  | [a, b] => .ok (a, b)
  | _ => .error (.valueError "wrong number of values to unpack")

/-- The loop body of `check_tokens`: `for name, token in TOKENS:` iterates
over the dict KEYS, so each iteration unpacks a key string into
`(name, token)`.  When unpacking would succeed (a 2-character key), `token`
is a character, never Python `None`, so `is_correct` is never cleared. -/
def check_tokens_go : List String → Bool → Except Failure Bool
  | [], is_correct => .ok is_correct
  | key :: rest, is_correct =>
    match unpackPair key with
    | .error e => .error e
    | .ok _ => check_tokens_go rest is_correct

/-- `check_tokens()` of `homework.py`.  The configuration values are part of
the `TOKENS` dict, but the function iterates the dict itself — yielding only
its keys — so the values in `cfg` are never consulted. -/
def check_tokens (_cfg : Config) : Except Failure Bool :=
  check_tokens_go TOKENS_keys true

/-- The startup part of `main()` (everything before the `while True:` loop):
calls `check_tokens()` and raises `ValueError(TOKENS_LOAD_UNCORRECTLY)` when
it returns falsy; an exception raised inside `check_tokens()` propagates. -/
def main_startup (cfg : Config) : Except Failure Unit :=
  match check_tokens cfg with
  | .error e => .error e
  | .ok b => if !b then .error (.valueError TOKENS_LOAD_UNCORRECTLY) else .ok ()

/-- The mutable state of the poll loop: `current_timestamp` (the PollCursor,
assigned from `response["current_date"]` (so in principle any `PyVal`);
initially the int 0) and `status_cache` (initially Python `None`). -/
structure LoopState where
  current_timestamp : PyVal
  status_cache : PyVal
deriving DecidableEq

/-- The initial loop state set up by `main()` before the loop. -/
def initState : LoopState := ⟨.int 0, .none⟩

/-- What the outside world does during one cycle of the loop: the transport
outcome of the single `requests.get`, and whether each of the (at most two)
`bot.send_message` calls would be delivered or raise `TelegramError` —
first the status-change notification, then the diagnostic notification of
the `except` handler. -/
structure CycleEnv where
  fetch : FetchOutcome
  statusSendOk : Bool
  diagSendOk : Bool
deriving DecidableEq

/-- `send_message(bot, message)` of `homework.py`, as a function of whether
the underlying Telegram delivery succeeds: on a `TelegramError` it logs and
re-raises `SendMessageError(MESSAGE_SEND_ERROR.format(message=message))`. -/
def send_message (delivered : Bool) (message : String) : Except Failure Unit :=
  if delivered then .ok () else .error (.sendMessageError (MESSAGE_SEND_ERROR message))

/-- `ERROR.format(error=error)`: the diagnostic message built by the
`except` handler of the loop.  `str(error)` is modelled by rendering the
failure payload; the exact text is not load-bearing. -/
def ERROR_fmt : Failure → String
  | .connectionError m => "Сбой в работе программы: " ++ m
  | .statusCodeError c => "Сбой в работе программы: код " ++ toString c
  | .responseError m => "Сбой в работе программы: " ++ m
  | .builtinKeyError k => "Сбой в работе программы: " ++ k
  | .typeError m => "Сбой в работе программы: " ++ m
  | .keyError m => "Сбой в работе программы: " ++ m
  | .homeworkStatusError m => "Сбой в работе программы: " ++ m
  | .sendMessageError m => "Сбой в работе программы: " ++ m
  | .valueError m => "Сбой в работе программы: " ++ m

/-- The `try:` block of one iteration of the `while True:` loop in `main()`
(lines 224–235).  Returns the state after the block together with the list
of status-change notifications delivered during it.  Note the source updates
`status_cache` only after `parse_status` and `send_message` both succeeded,
and updates `current_timestamp` from the response "current_date" field only inside
`if homeworks:`; every operation that can raise occurs before the first
assignment, so on an exception the state is unchanged. -/
def try_body (st : LoopState) (env : CycleEnv) :
    Except Failure (LoopState × List String) := do
  let response ← get_api_answer env.fetch
  let homeworks ← check_response response
  match homeworks with
  | [] => return (st, [])
  | homework :: _ =>
    let statusV ← pySubscript homework "status"
    if st.status_cache ≠ statusV then
      let message ← parse_status homework
      send_message env.statusSendOk message
      let cd ← pySubscript response "current_date"
      return ({ current_timestamp := cd, status_cache := statusV }, [message])
    else
      let cd ← pySubscript response "current_date"
      return ({ st with current_timestamp := cd }, [])

/-- Outcome of one full loop iteration: either `time.sleep(RETRY_PERIOD)` is
reached (with the resulting state, the delivered status-change notifications
and the delivered diagnostic message, if any), or an exception escapes the
iteration and the process terminates (`crash`). -/
inductive CycleResult where
  | sleep (st : LoopState) (notified : List String) (diag : Option String)
  | crash (e : Failure) (st : LoopState)
deriving DecidableEq

/-- One full iteration of the `while True:` loop, `except` handler included.
On an exception from the `try:` block the handler logs, then — since
`error != TelegramError` compares an exception instance with a class and is
therefore always true — unconditionally calls `send_message` with the
diagnostic message; a `SendMessageError` raised by that call is NOT caught
(the call sits inside the `except` block) and escapes the loop. -/
def cycle (st : LoopState) (env : CycleEnv) : CycleResult :=
  match try_body st env with
  | .ok (st2, notified) => .sleep st2 notified Option.none
  | .error e =>
    let message := ERROR_fmt e
    match send_message env.diagSendOk message with
    | .ok _ => .sleep st [] (some message)
    | .error e2 => .crash e2 st

/-- The loop state carried by a cycle outcome. -/
def CycleResult.state : CycleResult → LoopState
  | .sleep st _ _ => st
  | .crash _ st => st

/-- The status-change notifications delivered during a cycle. -/
def CycleResult.notified : CycleResult → List String
  | .sleep _ n _ => n
  | .crash _ _ => []

/-- Whether the cycle reached its sleep step (rather than crashing). -/
def CycleResult.reachesSleep : CycleResult → Bool
  | .sleep _ _ _ => true
  | .crash _ _ => false

/-- Run the loop over a whole sequence of per-cycle environments; if an
iteration crashes the process terminates and the remaining environments are
never consumed. -/
def runCycles : LoopState → List CycleEnv → LoopState
  | st, [] => st
  | st, env :: rest =>
    match cycle st env with
    | .sleep st2 _ _ => runCycles st2 rest
    | .crash _ st2 => st2

/-- Whether the `try:` block of the cycle completed without an exception
(a "successful cycle" in the sense of the spec: no error path taken, no
diagnostic notification). -/
def CycleResult.isSuccess : CycleResult → Bool
  | .sleep _ _ Option.none => true
  | _ => false

/-- The invariant of claim C10 as a decidable predicate: the status cache is
Python `None` or a key of the verdict table. -/
def cacheInvB (st : LoopState) : Bool :=
  match st.status_cache with
  | .none => true
  | .str s => (verdictLookup s).isSome
  | _ => false

/-- Sample homework record (used by witnesses and counterexamples). -/
def hwReviewing : PyVal :=
  .dict [("homework_name", .str "hw1"), ("status", .str "reviewing")]

/-- Sample API response around `hwReviewing` with a given `current_date`. -/
def respReviewing (cd : Int) : PyVal :=
  .dict [("homeworks", .list [hwReviewing]), ("current_date", .int cd)]

/-!
General lemmas about the embedded functions.

Shared inversion and unfolding lemmas used by several claim proofs below.
-/

theorem dictFind_isSome (kvs : List (String × PyVal)) (k : String) :
    (dictFind kvs k).isSome = kvs.any (fun p => p.1 == k) := by
  induction kvs with
  | nil => rfl
  | cons p rest ih =>
    unfold dictFind at ih ⊢
    cases hpk : (p.1 == k) <;> simp [List.find?, List.any, hpk, ih]

theorem check_response_ok (r : PyVal) (hws : List PyVal)
    (h : check_response r = .ok hws) :
    ∃ kvs, r = .dict kvs ∧ dictFind kvs "homeworks" = some (.list hws) ∧
      ∃ cd, dictFind kvs "current_date" = some cd := by
  cases r <;> simp only [check_response] at h
  case dict kvs =>
    cases h1 : dictFind kvs "homeworks" with
    | none => simp [h1] at h
    | some hv =>
      cases h2 : dictFind kvs "current_date" with
      | none => simp [h1, h2] at h
      | some cd =>
        cases hv <;> simp [h1, h2] at h
        case list l =>
          subst h
          exact ⟨kvs, rfl, h1, cd, h2⟩
  all_goals exact absurd h (by simp)

theorem check_response_current_date (r : PyVal) (hws : List PyVal)
    (h : check_response r = .ok hws) :
    ∃ cd, pySubscript r "current_date" = .ok cd := by
  obtain ⟨kvs, rfl, _, cd, hcd⟩ := check_response_ok r hws h
  exact ⟨cd, by simp [pySubscript, hcd]⟩

theorem try_body_empty (st : LoopState) (env : CycleEnv) (r : PyVal)
    (hf : get_api_answer env.fetch = .ok r)
    (hc : check_response r = .ok []) :
    try_body st env = .ok (st, []) := by
  simp [try_body, hf, hc, bind, Except.bind, pure, Except.pure]

theorem try_body_unchanged (st : LoopState) (env : CycleEnv)
    (r hw : PyVal) (t : List PyVal) (s cd : PyVal)
    (hf : get_api_answer env.fetch = .ok r)
    (hc : check_response r = .ok (hw :: t))
    (hs : pySubscript hw "status" = .ok s)
    (heq : st.status_cache = s)
    (hcd : pySubscript r "current_date" = .ok cd) :
    try_body st env = .ok ({ st with current_timestamp := cd }, []) := by
  simp [try_body, hf, hc, hs, heq, hcd, bind, Except.bind, pure, Except.pure]

theorem try_body_changed_ok (st : LoopState) (env : CycleEnv)
    (r hw : PyVal) (t : List PyVal) (s cd : PyVal) (m : String)
    (hf : get_api_answer env.fetch = .ok r)
    (hc : check_response r = .ok (hw :: t))
    (hs : pySubscript hw "status" = .ok s)
    (hne : st.status_cache ≠ s)
    (hp : parse_status hw = .ok m)
    (hsend : env.statusSendOk = true)
    (hcd : pySubscript r "current_date" = .ok cd) :
    try_body st env = .ok (⟨cd, s⟩, [m]) := by
  simp [try_body, hf, hc, hs, hne, hp, hsend, hcd, send_message,
    bind, Except.bind, pure, Except.pure]

theorem try_body_changed_send_fail (st : LoopState) (env : CycleEnv)
    (r hw : PyVal) (t : List PyVal) (s : PyVal) (m : String)
    (hf : get_api_answer env.fetch = .ok r)
    (hc : check_response r = .ok (hw :: t))
    (hs : pySubscript hw "status" = .ok s)
    (hne : st.status_cache ≠ s)
    (hp : parse_status hw = .ok m)
    (hsend : env.statusSendOk = false) :
    try_body st env = .error (.sendMessageError (MESSAGE_SEND_ERROR m)) := by
  simp [try_body, hf, hc, hs, hne, hp, hsend, send_message,
    bind, Except.bind, pure, Except.pure]

theorem cycle_of_try_ok (st : LoopState) (env : CycleEnv)
    (st2 : LoopState) (n : List String)
    (h : try_body st env = .ok (st2, n)) :
    cycle st env = .sleep st2 n Option.none := by
  simp [cycle, h]

theorem cycle_of_try_err (st : LoopState) (env : CycleEnv) (e : Failure)
    (h : try_body st env = .error e) :
    cycle st env =
      if env.diagSendOk then .sleep st [] (some (ERROR_fmt e))
      else .crash (.sendMessageError (MESSAGE_SEND_ERROR (ERROR_fmt e))) st := by
  cases hd : env.diagSendOk <;> simp [cycle, h, hd, send_message]

theorem parse_status_ok_inv (hw : PyVal) (m : String)
    (h : parse_status hw = .ok m) :
    ∃ s, pySubscript hw "status" = .ok (.str s) ∧ (verdictLookup s).isSome := by
  unfold parse_status at h
  cases hcn : pyContains hw "homework_name" with
  | error e =>
    rw [hcn] at h
    simp [bind, Except.bind] at h
  | ok hasName =>
    rw [hcn] at h
    cases hasName with
    | false =>
      simp [bind, Except.bind, pure, Except.pure, throw, throwThe,
        MonadExceptOf.throw] at h
    | true =>
      simp only [Bool.not_true, bind, Except.bind, pure, Except.pure] at h
      cases hn : pySubscript hw "homework_name" with
      | error e => rw [hn] at h; simp at h
      | ok nv =>
        rw [hn] at h
        cases hcs : pyContains hw "status" with
        | error e => rw [hcs] at h; simp at h
        | ok hasStatus =>
          rw [hcs] at h
          cases hasStatus with
          | false =>
            simp [bind, Except.bind, pure, Except.pure, throw, throwThe,
              MonadExceptOf.throw] at h
          | true =>
            simp only [Bool.not_true, bind, Except.bind, pure, Except.pure] at h
            cases hs : pySubscript hw "status" with
            | error e => rw [hs] at h; simp at h
            | ok sv =>
              rw [hs] at h
              cases sv <;>
                simp [pyHashable, bind, Except.bind, pure, Except.pure, throw,
                  throwThe, MonadExceptOf.throw] at h ⊢
              case str s =>
                cases hv : verdictLookup s with
                | none => rw [hv] at h; simp at h
                | some verdict => simp [hv]

theorem try_body_ok_inv (st : LoopState) (env : CycleEnv)
    (st2 : LoopState) (n : List String)
    (h : try_body st env = .ok (st2, n)) :
    ∃ r hws, get_api_answer env.fetch = .ok r ∧ check_response r = .ok hws ∧
      ((hws = [] ∧ st2 = st ∧ n = []) ∨
       ∃ hw t s cd, hws = hw :: t ∧ pySubscript hw "status" = .ok s ∧
         pySubscript r "current_date" = .ok cd ∧
         ((st.status_cache = s ∧ st2 = { st with current_timestamp := cd } ∧ n = []) ∨
          (st.status_cache ≠ s ∧ ∃ m, parse_status hw = .ok m ∧
            env.statusSendOk = true ∧ st2 = ⟨cd, s⟩ ∧ n = [m]))) := by
  unfold try_body at h
  cases hf : get_api_answer env.fetch with
  | error e => rw [hf] at h; simp [bind, Except.bind] at h
  | ok r =>
    rw [hf] at h
    simp only [bind, Except.bind] at h
    cases hc : check_response r with
    | error e => rw [hc] at h; simp at h
    | ok hws =>
      rw [hc] at h
      refine ⟨r, hws, rfl, hc, ?_⟩
      cases hws with
      | nil =>
        simp [pure, Except.pure] at h
        obtain ⟨h1, h2⟩ := h
        exact Or.inl ⟨rfl, h1.symm, h2⟩
      | cons hw t =>
        dsimp only at h
        cases hs : pySubscript hw "status" with
        | error e => rw [hs] at h; simp at h
        | ok s =>
          rw [hs] at h
          by_cases hcs : st.status_cache = s
          · simp only [hcs, ne_eq, not_true_eq_false, ite_false, if_false] at h
            cases hcd : pySubscript r "current_date" with
            | error e => rw [hcd] at h; simp at h
            | ok cd =>
              rw [hcd] at h
              simp [pure, Except.pure] at h
              obtain ⟨h1, h2⟩ := h
              refine Or.inr ⟨hw, t, s, cd, rfl, hs, rfl,
                Or.inl ⟨hcs, ?_, ?_⟩⟩
              · rw [← h1, hcs]
              · exact h2
          · simp only [ne_eq, hcs, not_false_eq_true, ite_true, if_true] at h
            cases hp : parse_status hw with
            | error e => rw [hp] at h; simp at h
            | ok m =>
              rw [hp] at h
              cases hsend : env.statusSendOk with
              | false => simp [hsend, send_message] at h
              | true =>
                simp only [hsend, send_message, ite_true, if_true] at h
                cases hcd : pySubscript r "current_date" with
                | error e => rw [hcd] at h; simp at h
                | ok cd =>
                  rw [hcd] at h
                  simp [pure, Except.pure] at h
                  obtain ⟨h1, h2⟩ := h
                  exact Or.inr ⟨hw, t, s, cd, rfl, hs, rfl,
                    Or.inr ⟨hcs, m, hp, rfl, h1.symm, h2.symm⟩⟩

/-!
Claim theorems.
-/

/-- C1: the claim states no failure in a cycle ever terminates the process and
that a delivery failure during the best-effort diagnostic forward is logged
but never re-raised.  The code violates this: `send_message` is called from
inside the `except` block (the guard `error != TelegramError` compares an
instance with a class and is always true), and the `SendMessageError` it
re-raises is not caught, so a cycle whose fetch fails and whose diagnostic
delivery also fails crashes the loop instead of reaching `time.sleep`. -/
theorem C1_diag_send_failure_crashes_loop :
    cycle initState ⟨.netFail, true, false⟩
      = .crash (.sendMessageError (MESSAGE_SEND_ERROR
          (ERROR_fmt (.connectionError API_REQUEST_ERROR)))) initState
    ∧ (cycle initState ⟨.netFail, true, false⟩).reachesSleep = false :=
  ⟨rfl, rfl⟩

/-- C2: the claim states startup fails iff a required configuration value is
absent and succeeds when all three are present.  The code violates this:
`for name, token in TOKENS:` iterates the dict itself, yielding its key
strings, and tuple-unpacking the 15-character key "PRACTICUM_TOKEN" raises
`ValueError` before any value is inspected — so for EVERY configuration,
complete or not, `check_tokens` raises and `main` dies before the loop. -/
theorem C2_startup_always_raises (cfg : Config) :
    check_tokens cfg = .error (.valueError "wrong number of values to unpack")
    ∧ main_startup cfg = .error (.valueError "wrong number of values to unpack") :=
  ⟨rfl, rfl⟩

/-- C7: the claim states a decoded body containing an `error` or `code` field
(including only one of the two) fails with the service-refusal failure
carrying the payload.  The code violates the one-field half: the message
formatting subscripts both `response.json()["code"]` and
`response.json()["error"]`, so with only one field present the builtin
`KeyError` for the other field is raised instead of `ResponseError`; with
both present the `ResponseError` of the claim is raised. -/
theorem C7_one_field_raises_builtin_keyerror :
    get_api_answer (.response 200 (.dict [("error", .str "boom")]))
      = .error (.builtinKeyError "code")
    ∧ get_api_answer (.response 200 (.dict [("code", .int 404)]))
      = .error (.builtinKeyError "error")
    ∧ get_api_answer (.response 200 (.dict [("code", .int 404), ("error", .str "boom")]))
      = .error (.responseError (RESPONSE_ERROR "404" "boom")) :=
  ⟨rfl, rfl, rfl⟩

/-- C5 counterexample: a mapping whose `homeworks` value is a list but which
lacks `current_date` — by the claim ("no other failure condition") validation
must return the list, but `check_response` fails with the custom `KeyError`
for `current_date`. -/
theorem C5_counterexample :
    check_response (.dict [("homeworks", .list [])])
      = .error (.keyError (KEY_ERROR "current_date")) :=
  rfl

/-- C5 (amended): `check_response` fails with ShapeFailure on a non-mapping,
with MissingKeyFailure when `homeworks` is absent, with MissingKeyFailure
when `current_date` is absent (checked after `homeworks` — the condition the
claim omitted), with ShapeFailure when `homeworks` is present but not a list,
and otherwise returns the (possibly empty) `homeworks` list unchanged. -/
theorem C5_check_response_cases (raw : PyVal) :
    ((∀ kvs, raw ≠ .dict kvs) →
        check_response raw = .error (.typeError TYPE_ERROR_RESPONSE))
    ∧ (∀ kvs, raw = .dict kvs → dictFind kvs "homeworks" = Option.none →
        check_response raw = .error (.keyError (KEY_ERROR "homeworks")))
    ∧ (∀ kvs hv, raw = .dict kvs → dictFind kvs "homeworks" = some hv →
        dictFind kvs "current_date" = Option.none →
        check_response raw = .error (.keyError (KEY_ERROR "current_date")))
    ∧ (∀ kvs hv cd, raw = .dict kvs → dictFind kvs "homeworks" = some hv →
        dictFind kvs "current_date" = some cd → (∀ xs, hv ≠ .list xs) →
        check_response raw = .error (.typeError TYPE_ERROR_HOMEWORK))
    ∧ (∀ kvs hws cd, raw = .dict kvs →
        dictFind kvs "homeworks" = some (.list hws) →
        dictFind kvs "current_date" = some cd →
        check_response raw = .ok hws) := by
  refine ⟨?_, ?_, ?_, ?_, ?_⟩
  · intro hnd
    cases raw
    case dict kvs => exact absurd rfl (hnd kvs)
    all_goals rfl
  · rintro kvs rfl h1
    simp [check_response, h1]
  · rintro kvs hv rfl h1 h2
    simp [check_response, h1, h2]
  · rintro kvs hv cd rfl h1 h2 hnl
    cases hv
    case list xs => exact absurd rfl (hnl xs)
    all_goals simp [check_response, h1, h2]
  · rintro kvs hws cd rfl h1 h2
    simp [check_response, h1, h2]

/-- C5 witness: the amended characterization applied to a concrete valid
response (and to a concrete non-list `homeworks` value). -/
theorem C5_witness :
    check_response (.dict [("homeworks", .list [hwReviewing]), ("current_date", .int 5)])
      = .ok [hwReviewing] :=
  (C5_check_response_cases _).2.2.2.2 _ [hwReviewing] (.int 5) rfl rfl rfl

/-- C8: for every record (a mapping) carrying a string `homework_name` and a
string `status` that is a key of the verdict table, `parse_status` succeeds
with the fixed template interpolating the name and the exact mapped verdict
text, so the message contains both as substrings.  Determinism/idempotence is
immediate: `parse_status` is a pure function and the first conjunct pins its
output to a unique string for the given input. -/
theorem C8_parse_success (kvs : List (String × PyVal)) (name status verdict : String)
    (hname : dictFind kvs "homework_name" = some (.str name))
    (hstatus : dictFind kvs "status" = some (.str status))
    (hverdict : verdictLookup status = some verdict) :
    parse_status (.dict kvs) = .ok (PARSE_STATUS name verdict)
    ∧ (∃ pre post, PARSE_STATUS name verdict = pre ++ name ++ post)
    ∧ (∃ pre, PARSE_STATUS name verdict = pre ++ verdict) := by
  have hn : kvs.any (fun p => p.1 == "homework_name") = true := by
    rw [← dictFind_isSome, hname]; rfl
  have hst : kvs.any (fun p => p.1 == "status") = true := by
    rw [← dictFind_isSome, hstatus]; rfl
  refine ⟨?_, ?_, ?_⟩
  · unfold parse_status
    simp [pyContains, hn, hst, pySubscript, hname, hstatus, hverdict, pyHashable,
      pyStr, bind, Except.bind, pure, Except.pure]
  · exact ⟨"Изменился статус проверки работы \"", "\". " ++ verdict,
      by simp [PARSE_STATUS, String.append_assoc]⟩
  · exact ⟨"Изменился статус проверки работы \"" ++ name ++ "\". ", rfl⟩

/-- C8 witness: the success case evaluated on the sample record. -/
theorem C8_witness :
    parse_status (.dict [("homework_name", .str "hw1"), ("status", .str "reviewing")])
      = .ok (PARSE_STATUS "hw1" "Работа взята на проверку ревьюером.")
    ∧ (∃ pre post, PARSE_STATUS "hw1" "Работа взята на проверку ревьюером."
        = pre ++ "hw1" ++ post)
    ∧ (∃ pre, PARSE_STATUS "hw1" "Работа взята на проверку ревьюером."
        = pre ++ "Работа взята на проверку ревьюером.") :=
  C8_parse_success [("homework_name", .str "hw1"), ("status", .str "reviewing")]
    "hw1" "reviewing" "Работа взята на проверку ревьюером." rfl rfl rfl

/-- C9: for every record (a mapping), `parse_status` fails with the custom
`KeyError` for `homework_name` when that key is absent, with the custom
`KeyError` for `status` when `homework_name` is present but `status` absent,
and with `HomeworkStatusError` carrying the offending status value when
`status` is present but not a key of the verdict table. -/
theorem C9_parse_failures (kvs : List (String × PyVal)) :
    (dictFind kvs "homework_name" = Option.none →
        parse_status (.dict kvs) = .error (.keyError (KEY_ERROR "homework_name")))
    ∧ (∀ nv, dictFind kvs "homework_name" = some nv →
        dictFind kvs "status" = Option.none →
        parse_status (.dict kvs) = .error (.keyError (KEY_ERROR "status")))
    ∧ (∀ nv s, dictFind kvs "homework_name" = some nv →
        dictFind kvs "status" = some (.str s) →
        verdictLookup s = Option.none →
        parse_status (.dict kvs) = .error (.homeworkStatusError (STATUS_EXEPTION s))) := by
  refine ⟨?_, ?_, ?_⟩
  · intro h1
    have hn : kvs.any (fun p => p.1 == "homework_name") = false := by
      rw [← dictFind_isSome, h1]; rfl
    unfold parse_status
    simp [pyContains, hn, bind, Except.bind, pure, Except.pure, throw, throwThe,
      MonadExceptOf.throw]
  · intro nv h1 h2
    have hn : kvs.any (fun p => p.1 == "homework_name") = true := by
      rw [← dictFind_isSome, h1]; rfl
    have hst : kvs.any (fun p => p.1 == "status") = false := by
      rw [← dictFind_isSome, h2]; rfl
    unfold parse_status
    simp [pyContains, hn, hst, pySubscript, h1, bind, Except.bind, pure,
      Except.pure, throw, throwThe, MonadExceptOf.throw]
  · intro nv s h1 h2 hv
    have hn : kvs.any (fun p => p.1 == "homework_name") = true := by
      rw [← dictFind_isSome, h1]; rfl
    have hst : kvs.any (fun p => p.1 == "status") = true := by
      rw [← dictFind_isSome, h2]; rfl
    unfold parse_status
    simp [pyContains, hn, hst, pySubscript, h1, h2, hv, pyHashable, bind,
      Except.bind, pure, Except.pure, throw, throwThe, MonadExceptOf.throw]

/-- C9 witness: the three failure cases evaluated on concrete records. -/
theorem C9_witness :
    parse_status (.dict [("status", .str "reviewing")])
      = .error (.keyError (KEY_ERROR "homework_name"))
    ∧ parse_status (.dict [("homework_name", .str "hw1")])
      = .error (.keyError (KEY_ERROR "status"))
    ∧ parse_status (.dict [("homework_name", .str "hw1"), ("status", .str "weird")])
      = .error (.homeworkStatusError (STATUS_EXEPTION "weird")) :=
  ⟨(C9_parse_failures [("status", .str "reviewing")]).1 rfl,
   (C9_parse_failures [("homework_name", .str "hw1")]).2.1 (.str "hw1") rfl rfl,
   (C9_parse_failures [("homework_name", .str "hw1"), ("status", .str "weird")]).2.2
     (.str "hw1") "weird" rfl rfl rfl⟩

/-- On an exception from the `try:` block, the loop state is unchanged
whether or not the diagnostic delivery succeeds. -/
theorem cycle_state_of_try_err (st : LoopState) (env : CycleEnv) (e : Failure)
    (h : try_body st env = .error e) :
    (cycle st env).state = st := by
  rw [cycle_of_try_err st env e h]
  cases env.diagSendOk <;> simp [CycleResult.state]

/-- A successful cycle is exactly a completed `try:` block. -/
theorem cycle_isSuccess_inv (st : LoopState) (env : CycleEnv)
    (h : (cycle st env).isSuccess = true) :
    ∃ st2 n, try_body st env = .ok (st2, n)
      ∧ cycle st env = .sleep st2 n Option.none := by
  cases ht : try_body st env with
  | ok p =>
    obtain ⟨st2, n⟩ := p
    exact ⟨st2, n, rfl, cycle_of_try_ok st env st2 n ht⟩
  | error e =>
    rw [cycle_of_try_err st env e ht] at h
    cases hdd : env.diagSendOk <;> simp [hdd, CycleResult.isSuccess] at h

/-- The cursor after a cycle is either the prior cursor, or (on a successful
cycle that observed records) the `current_date` value of the response. -/
theorem cycle_cursor_cases (st : LoopState) (env : CycleEnv) :
    (cycle st env).state.current_timestamp = st.current_timestamp
    ∨ ∃ r hws cd, get_api_answer env.fetch = .ok r ∧ check_response r = .ok hws ∧
        pySubscript r "current_date" = .ok cd ∧
        (cycle st env).state.current_timestamp = cd := by
  cases ht : try_body st env with
  | error e => exact Or.inl (by rw [cycle_state_of_try_err st env e ht])
  | ok p =>
    obtain ⟨st2, n⟩ := p
    have hcy := cycle_of_try_ok st env st2 n ht
    obtain ⟨r, hws, hf, hc, hca⟩ := try_body_ok_inv st env st2 n ht
    rcases hca with ⟨_, rfl, _⟩ | ⟨hw, t, s, cd, rfl, hs, hcd, hbr⟩
    · exact Or.inl (by rw [hcy]; rfl)
    · right
      refine ⟨r, _, cd, hf, hc, hcd, ?_⟩
      rw [hcy]
      rcases hbr with ⟨_, rfl, _⟩ | ⟨_, m, _, _, rfl, _⟩ <;> rfl

/-- C3: in a cycle where the first record parses to a changed status but the
status-change delivery fails, the status cache is left unchanged (whether the
diagnostic forward succeeds or crashes the process), it still differs from
the observed status, and a later cycle observing the same record with a
working delivery sends the notification. -/
theorem C3_cache_unchanged_on_send_failure
    (st : LoopState) (env : CycleEnv) (r hw s : PyVal) (t : List PyVal) (m : String)
    (hf : get_api_answer env.fetch = .ok r)
    (hc : check_response r = .ok (hw :: t))
    (hs : pySubscript hw "status" = .ok s)
    (hne : st.status_cache ≠ s)
    (hp : parse_status hw = .ok m)
    (hsend : env.statusSendOk = false) :
    (cycle st env).state.status_cache = st.status_cache
    ∧ (cycle st env).state.status_cache ≠ s
    ∧ ∀ env2 : CycleEnv, get_api_answer env2.fetch = .ok r →
        env2.statusSendOk = true →
        (cycle (cycle st env).state env2).notified = [m] := by
  have ht := try_body_changed_send_fail st env r hw t s m hf hc hs hne hp hsend
  have hstate := cycle_state_of_try_err st env _ ht
  obtain ⟨cd, hcd⟩ := check_response_current_date r (hw :: t) hc
  refine ⟨by rw [hstate], by rw [hstate]; exact hne, ?_⟩
  intro env2 hf2 hsend2
  rw [hstate]
  have ht2 := try_body_changed_ok st env2 r hw t s cd m hf2 hc hs hne hp hsend2 hcd
  rw [cycle_of_try_ok st env2 _ _ ht2]
  rfl

/-- C3 witness: concrete failing-delivery cycle followed by a delivering one. -/
theorem C3_witness :
    (cycle ⟨.int 0, PyVal.none⟩
        ⟨.response 200 (respReviewing 100), false, true⟩).state.status_cache
      = PyVal.none
    ∧ (cycle ⟨.int 0, PyVal.none⟩
        ⟨.response 200 (respReviewing 100), false, true⟩).state.status_cache
      ≠ .str "reviewing"
    ∧ ∀ env2 : CycleEnv, get_api_answer env2.fetch = .ok (respReviewing 100) →
        env2.statusSendOk = true →
        (cycle (cycle ⟨.int 0, PyVal.none⟩
            ⟨.response 200 (respReviewing 100), false, true⟩).state env2).notified
          = [PARSE_STATUS "hw1" "Работа взята на проверку ревьюером."] :=
  C3_cache_unchanged_on_send_failure ⟨.int 0, PyVal.none⟩
    ⟨.response 200 (respReviewing 100), false, true⟩
    (respReviewing 100) hwReviewing (.str "reviewing") [] _
    rfl rfl rfl (by decide) rfl rfl

/-- C6 counterexample: a successful cycle whose response carries a
`current_date` smaller than the pre-cycle cursor DOES decrease the cursor
(100 to 50), contradicting "never decreases regardless of the current_date
value the response carries". -/
theorem C6_counterexample :
    cycle ⟨.int 100, .str "reviewing"⟩
        ⟨.response 200 (respReviewing 50), true, true⟩
      = .sleep ⟨.int 50, .str "reviewing"⟩ [] Option.none :=
  rfl

/-- C6 (amended): the cursor after a cycle is either unchanged or assigned
the `current_date` of the response; hence it never decreases PROVIDED every
`current_date` the cycle observes is an integer at least the prior cursor —
the code takes no maximum and simply assigns the field. -/
theorem C6_cursor_nondecreasing
    (st : LoopState) (env : CycleEnv) (a : Int)
    (hcur : st.current_timestamp = .int a)
    (hdate : ∀ r hws cd, get_api_answer env.fetch = .ok r →
        check_response r = .ok hws → pySubscript r "current_date" = .ok cd →
        ∃ b : Int, cd = .int b ∧ a ≤ b) :
    ∃ c : Int, (cycle st env).state.current_timestamp = .int c ∧ a ≤ c := by
  rcases cycle_cursor_cases st env with h | ⟨r, hws, cd, hf, hc, hcd, h⟩
  · exact ⟨a, by rw [h, hcur], le_refl a⟩
  · obtain ⟨b, rfl, hab⟩ := hdate r hws cd hf hc hcd
    exact ⟨b, h, hab⟩

/-- C6 witness: the amended monotonicity applied to a concrete cycle whose
response carries `current_date = 100` over a cursor of 0. -/
theorem C6_witness :
    ∃ c : Int,
      (cycle ⟨.int 0, .str "reviewing"⟩
          ⟨.response 200 (respReviewing 100), true, true⟩).state.current_timestamp
        = .int c ∧ 0 ≤ c := by
  refine C6_cursor_nondecreasing _ _ 0 rfl ?_
  intro r hws cd hf hc hcd
  have hr : Except.ok (ε := Failure) (respReviewing 100) = Except.ok r := by
    rw [← hf]; rfl
  obtain rfl := (Except.ok.inj hr).symm
  have hcd2 : Except.ok (ε := Failure) (PyVal.int 100) = Except.ok cd := by
    rw [← hcd]; rfl
  obtain rfl := (Except.ok.inj hcd2).symm
  exact ⟨100, rfl, by norm_num⟩

/-- Helper: a completed `try:` block over a response whose first record has
status `s` either saw an unchanged cache (no notification) or a changed cache
(cache set to `s`, exactly one notification delivered). -/
theorem try_body_same_record_cases (st : LoopState) (env : CycleEnv)
    (st2 : LoopState) (n : List String) (r hw s : PyVal) (t : List PyVal)
    (ht : try_body st env = .ok (st2, n))
    (hf : get_api_answer env.fetch = .ok r)
    (hc : check_response r = .ok (hw :: t))
    (hs : pySubscript hw "status" = .ok s) :
    (st.status_cache = s ∧ st2.status_cache = st.status_cache ∧ n = []) ∨
    (st.status_cache ≠ s ∧ st2.status_cache = s ∧ ∃ m, n = [m]) := by
  obtain ⟨r', hws', hf', hc', hca⟩ := try_body_ok_inv st env st2 n ht
  obtain rfl : r' = r := Except.ok.inj (hf'.symm.trans hf)
  obtain rfl : hws' = hw :: t := Except.ok.inj (hc'.symm.trans hc)
  rcases hca with ⟨hnil, _, _⟩ | ⟨hw', t', s', cd, heq, hs', hcd, hbr⟩
  · exact absurd hnil (by simp)
  · obtain ⟨rfl, rfl⟩ := List.cons.inj heq
    obtain rfl : s' = s := Except.ok.inj (hs'.symm.trans hs)
    rcases hbr with ⟨hcs, rfl, hn⟩ | ⟨hne, m, hp, hsok, rfl, hn⟩
    · exact Or.inl ⟨hcs, rfl, hn⟩
    · exact Or.inr ⟨hne, rfl, m, hn⟩

/-- C4 counterexample: two consecutive successful cycles whose responses each
carry a first record with status "reviewing", but with StatusCache already
equal to "reviewing" before the first of them — ZERO notifications are
delivered across the two cycles, not the "exactly one" the claim states. -/
theorem C4_counterexample :
    cycle ⟨.int 0, .str "reviewing"⟩
        ⟨.response 200 (respReviewing 100), true, true⟩
      = .sleep ⟨.int 100, .str "reviewing"⟩ [] Option.none
    ∧ cycle ⟨.int 100, .str "reviewing"⟩
        ⟨.response 200 (respReviewing 100), true, true⟩
      = .sleep ⟨.int 100, .str "reviewing"⟩ [] Option.none
    ∧ ((cycle ⟨.int 0, .str "reviewing"⟩
          ⟨.response 200 (respReviewing 100), true, true⟩).notified
        ++ (cycle ⟨.int 100, .str "reviewing"⟩
          ⟨.response 200 (respReviewing 100), true, true⟩).notified).length = 0 :=
  ⟨rfl, rfl, rfl⟩

/-- C4 (amended): across two consecutive successful cycles whose responses
each contain a first record with the same status value, AT MOST one
status-change notification is delivered in total — exactly one if and only
if StatusCache before the first of the two cycles differed from that status
(the cycle that first observed it notifies), and zero when the status had
already been observed before. -/
theorem C4_at_most_one_notification
    (st : LoopState) (env1 env2 : CycleEnv) (r1 r2 hw1 hw2 s : PyVal)
    (t1 t2 : List PyVal)
    (hf1 : get_api_answer env1.fetch = .ok r1)
    (hc1 : check_response r1 = .ok (hw1 :: t1))
    (hs1 : pySubscript hw1 "status" = .ok s)
    (hf2 : get_api_answer env2.fetch = .ok r2)
    (hc2 : check_response r2 = .ok (hw2 :: t2))
    (hs2 : pySubscript hw2 "status" = .ok s)
    (hok1 : (cycle st env1).isSuccess = true)
    (hok2 : (cycle (cycle st env1).state env2).isSuccess = true) :
    ((cycle st env1).notified
      ++ (cycle (cycle st env1).state env2).notified).length ≤ 1
    ∧ (((cycle st env1).notified
        ++ (cycle (cycle st env1).state env2).notified).length = 1
       ↔ st.status_cache ≠ s) := by
  obtain ⟨st1, n1, ht1, hcy1⟩ := cycle_isSuccess_inv st env1 hok1
  rw [hcy1] at hok2 ⊢
  simp only [CycleResult.state, CycleResult.notified] at hok2 ⊢
  obtain ⟨st2, n2, ht2, hcy2⟩ := cycle_isSuccess_inv st1 env2 hok2
  rw [hcy2]
  simp only [CycleResult.notified]
  have c1 := try_body_same_record_cases st env1 st1 n1 r1 hw1 s t1 ht1 hf1 hc1 hs1
  have c2 := try_body_same_record_cases st1 env2 st2 n2 r2 hw2 s t2 ht2 hf2 hc2 hs2
  rcases c1 with ⟨hcs, hcache1, rfl⟩ | ⟨hne, hcache1, m, rfl⟩
  · rcases c2 with ⟨_, _, rfl⟩ | ⟨hne2, _, _⟩
    · simp [hcs]
    · exact absurd (hcache1.trans hcs) hne2
  · rcases c2 with ⟨_, _, rfl⟩ | ⟨hne2, _, _⟩
    · simp [hne]
    · exact absurd hcache1 hne2

/-- C4 witness: the amendment applied to two concrete consecutive cycles that
first observe status "reviewing" from an empty cache. -/
theorem C4_witness :
    ((cycle initState ⟨.response 200 (respReviewing 100), true, true⟩).notified
      ++ (cycle (cycle initState
            ⟨.response 200 (respReviewing 100), true, true⟩).state
          ⟨.response 200 (respReviewing 100), true, true⟩).notified).length ≤ 1
    ∧ (((cycle initState ⟨.response 200 (respReviewing 100), true, true⟩).notified
        ++ (cycle (cycle initState
              ⟨.response 200 (respReviewing 100), true, true⟩).state
            ⟨.response 200 (respReviewing 100), true, true⟩).notified).length = 1
       ↔ initState.status_cache ≠ .str "reviewing") :=
  C4_at_most_one_notification initState
    ⟨.response 200 (respReviewing 100), true, true⟩
    ⟨.response 200 (respReviewing 100), true, true⟩
    (respReviewing 100) (respReviewing 100) hwReviewing hwReviewing
    (.str "reviewing") [] [] rfl rfl rfl rfl rfl rfl rfl rfl

/-- Helper: one full cycle preserves the cache invariant. -/
theorem cycle_preserves_cacheInv (st : LoopState) (env : CycleEnv)
    (h : cacheInvB st = true) : cacheInvB (cycle st env).state = true := by
  cases ht : try_body st env with
  | error e => rw [cycle_state_of_try_err st env e ht]; exact h
  | ok p =>
    obtain ⟨st2, n⟩ := p
    rw [cycle_of_try_ok st env st2 n ht]
    obtain ⟨r, hws, hf, hc, hca⟩ := try_body_ok_inv st env st2 n ht
    rcases hca with ⟨_, rfl, _⟩ | ⟨hw, t, s, cd, rfl, hs, hcd, hbr⟩
    · exact h
    · rcases hbr with ⟨hcs, rfl, _⟩ | ⟨hne, m, hp, _, rfl, _⟩
      · exact h
      · obtain ⟨s', hs', hv⟩ := parse_status_ok_inv hw m hp
        obtain rfl : s = .str s' := Except.ok.inj (hs.symm.trans hs')
        simpa [cacheInvB, CycleResult.state] using hv

/-- C10: starting from the initial state (cache = Python `None`), after any
sequence of cycles the status cache is either still `None` or a key of the
verdict table — it is only ever assigned the status of a record on which
`parse_status` just succeeded, and `parse_status` succeeds only on statuses
in `HOMEWORK_VERDICTS`. -/
theorem C10_cache_none_or_verdict_key (envs : List CycleEnv) :
    cacheInvB (runCycles initState envs) = true := by
  have key : ∀ es : List CycleEnv, ∀ st, cacheInvB st = true →
      cacheInvB (runCycles st es) = true := by
    intro es
    induction es with
    | nil => intro st hst; exact hst
    | cons env rest ih =>
      intro st hst
      unfold runCycles
      have hpres := cycle_preserves_cacheInv st env hst
      cases hcy : cycle st env with
      | sleep st2 nn d =>
        rw [hcy] at hpres
        exact ih st2 hpres
      | crash e st2 =>
        rw [hcy] at hpres
        exact hpres
  exact key envs initState rfl

end HomeworkBot
